import Mathlib

/-!
Shallow embedding of the discourse-webhook ingestion pipeline.

The development models, faithfully to the TypeScript sources:
  * src/shared/security.ts   - HMAC-SHA256 webhook signature validation
    (the crypto library primitives createHmac / digest / Buffer.from hex /
    timingSafeEqual are implemented here from their documented behaviour);
  * the webhook handler service (app.post "/webhook") - header checks,
    signature validation, envelope construction, publish, response mapping;
  * src/shared/queue.ts      - the consume callback deciding per delivery
    between acknowledge, requeue and dead-letter;
  * src/worker/index.ts      - routeMessage dispatching on event_type.

Strings of the runtime are modelled as lists of characters, byte buffers as
lists of naturals below 256. Fallible library calls are modelled with Except.
-/

namespace Webhook

/-- Byte strings (Node Buffer contents): lists of naturals below 256. -/
abbrev Bytes := List Nat

/-! SHA-256, as used by the Node crypto library (FIPS 180-4). -/

/-- Truncation of a natural number to a 32-bit word. -/
def w32 (n : Nat) : Nat := n % 4294967296

/-- Right rotation of a 32-bit word. -/
def rotr32 (n x : Nat) : Nat := w32 ((x >>> n) ||| (x <<< (32 - n)))

/-- Choice function of the SHA-256 round (bitwise complement written as xor
with the all-ones 32-bit mask). -/
def shaCh (x y z : Nat) : Nat := (x &&& y) ^^^ ((x ^^^ 4294967295) &&& z)

/-- Majority function of the SHA-256 round. -/
def shaMaj (x y z : Nat) : Nat := (x &&& y) ^^^ (x &&& z) ^^^ (y &&& z)

/-- Upper-case sigma-0 of SHA-256. -/
def bigSigma0 (x : Nat) : Nat := rotr32 2 x ^^^ rotr32 13 x ^^^ rotr32 22 x

/-- Upper-case sigma-1 of SHA-256. -/
def bigSigma1 (x : Nat) : Nat := rotr32 6 x ^^^ rotr32 11 x ^^^ rotr32 25 x

/-- Lower-case sigma-0 of SHA-256. -/
def smallSigma0 (x : Nat) : Nat := rotr32 7 x ^^^ rotr32 18 x ^^^ (x >>> 3)

/-- Lower-case sigma-1 of SHA-256. -/
def smallSigma1 (x : Nat) : Nat := rotr32 17 x ^^^ rotr32 19 x ^^^ (x >>> 10)

/-- The 64 SHA-256 round constants of FIPS 180-4, in decimal. -/
def shaK : List Nat :=
  [1116352408, 1899447441, 3049323471, 3921009573, 961987163, 1508970993,
   2453635748, 2870763221, 3624381080, 310598401, 607225278, 1426881987,
   1925078388, 2162078206, 2614888103, 3248222580, 3835390401, 4022224774,
   264347078, 604807628, 770255983, 1249150122, 1555081692, 1996064986,
   2554220882, 2821834349, 2952996808, 3210313671, 3336571891, 3584528711,
   113926993, 338241895, 666307205, 773529912, 1294757372, 1396182291,
   1695183700, 1986661051, 2177026350, 2456956037, 2730485921, 2820302411,
   3259730800, 3345764771, 3516065817, 3600352804, 4094571909, 275423344,
   430227734, 506948616, 659060556, 883997877, 958139571, 1322822218,
   1537002063, 1747873779, 1955562222, 2024104815, 2227730452, 2361852424,
   2428436474, 2756734187, 3204031479, 3329325298]

/-- Working state of the SHA-256 compression function: eight 32-bit words. -/
structure Hash8 where
  a : Nat
  b : Nat
  c : Nat
  d : Nat
  e : Nat
  f : Nat
  g : Nat
  h : Nat

/-- Initial SHA-256 hash state, in decimal. -/
def initHash : Hash8 :=
  ⟨1779033703, 3144134277, 1013904242, 2773480762,
   1359893119, 2600822924, 528734635, 1541459225⟩

/-- Extension of the 16-word message schedule to 64 words; the accumulator is
kept reversed, most recent word first. -/
def extendWordsRev (rev : List Nat) : Nat → List Nat
  | 0 => rev
  | n + 1 =>
    let w := w32 (smallSigma1 (rev.getD 1 0) + rev.getD 6 0 +
                  smallSigma0 (rev.getD 14 0) + rev.getD 15 0)
    extendWordsRev (w :: rev) n

/-- Full 64-word message schedule of one block. -/
def messageSchedule (block16 : List Nat) : List Nat :=
  (extendWordsRev block16.reverse 48).reverse

/-- One SHA-256 compression round. -/
def shaRound (st : Hash8) (kw : Nat × Nat) : Hash8 :=
  let t1 := w32 (st.h + bigSigma1 st.e + shaCh st.e st.f st.g + kw.1 + kw.2)
  let t2 := w32 (bigSigma0 st.a + shaMaj st.a st.b st.c)
  ⟨w32 (t1 + t2), st.a, st.b, st.c, w32 (st.d + t1), st.e, st.f, st.g⟩

/-- Compression of one 16-word block into the running hash state. -/
def compressBlock (st : Hash8) (block16 : List Nat) : Hash8 :=
  let ws := messageSchedule block16
  let fin := (shaK.zip ws).foldl shaRound st
  ⟨w32 (st.a + fin.a), w32 (st.b + fin.b), w32 (st.c + fin.c), w32 (st.d + fin.d),
   w32 (st.e + fin.e), w32 (st.f + fin.f), w32 (st.g + fin.g), w32 (st.h + fin.h)⟩

/-- Grouping of bytes into 32-bit words, big endian. -/
def bytesToWords : Bytes → List Nat
  | b0 :: b1 :: b2 :: b3 :: rest =>
    (b0 * 16777216 + b1 * 65536 + b2 * 256 + b3) :: bytesToWords rest
  | _ => []

/-- Padding of SHA-256: append 0x80, zeros up to 56 mod 64, and the 64-bit
big-endian bit length. -/
def padMessage (msg : Bytes) : Bytes :=
  let L := msg.length
  let zeros := (119 - L % 64) % 64
  let bitLen := L * 8
  msg ++ 128 :: List.replicate zeros 0 ++
    [bitLen / 72057594037927936 % 256, bitLen / 281474976710656 % 256,
     bitLen / 1099511627776 % 256, bitLen / 4294967296 % 256,
     bitLen / 16777216 % 256, bitLen / 65536 % 256, bitLen / 256 % 256, bitLen % 256]

/-- Splitting into 16-word blocks; the fuel argument keeps the recursion
structural so that the kernel can evaluate it. -/
def toBlocksFuel : Nat → Bytes → List (List Nat)
  | 0, _ => []
  | _, [] => []
  | n + 1, b :: rest => bytesToWords ((b :: rest).take 64) :: toBlocksFuel n (rest.drop 63)

/-- Splitting of a padded message into 16-word blocks. -/
def toBlocks (bs : Bytes) : List (List Nat) := toBlocksFuel bs.length bs

/-- Bytes of a 32-bit word, big endian. -/
def wordToBytes (w : Nat) : Bytes :=
  [w / 16777216 % 256, w / 65536 % 256, w / 256 % 256, w % 256]

/-- Full SHA-256 of a byte string: 32 bytes. -/
def sha256 (msg : Bytes) : Bytes :=
  let st := (toBlocks (padMessage msg)).foldl compressBlock initHash
  wordToBytes st.a ++ wordToBytes st.b ++ wordToBytes st.c ++ wordToBytes st.d ++
  wordToBytes st.e ++ wordToBytes st.f ++ wordToBytes st.g ++ wordToBytes st.h

/-- Key preprocessing of HMAC: hash keys longer than the 64-byte block size,
then pad with zeros to the block size. -/
def hmacKeyBlock (key : Bytes) : Bytes :=
  let k := if key.length > 64 then sha256 key else key
  k ++ List.replicate (64 - k.length) 0

/-- Keyed-hash message authentication code over SHA-256, the function computed
by createHmac of the Node crypto library. -/
def hmacSha256 (key msg : Bytes) : Bytes :=
  let kb := hmacKeyBlock key
  sha256 ((kb.map (fun b => b ^^^ 92)) ++ sha256 ((kb.map (fun b => b ^^^ 54)) ++ msg))

/-- Bytes of an ASCII string; all string data appearing in the repository
(secrets, headers, digests) is ASCII. -/
def strBytes (s : String) : Bytes := s.data.map Char.toNat

/-! Hex encoding and decoding, with the exact behaviour of the Node library:
digest("hex") produces lowercase hex; Buffer.from(s, "hex") decodes pairs of
hex digits (either case) and silently stops at the first invalid pair. -/

/-- Lowercase hexadecimal digit of a value below 16. -/
def toHexDigit (n : Nat) : Char := if n < 10 then Char.ofNat (48 + n) else Char.ofNat (87 + n)

/-- Lowercase hex encoding of a byte string, as digest("hex") in Node. -/
def hexEncode (bs : Bytes) : List Char :=
  bs.flatMap (fun b => [toHexDigit (b / 16), toHexDigit (b % 16)])

/-- Hexadecimal digit as accepted by the Node hex decoder (either case). -/
def isNodeHexDigit (c : Char) : Bool :=
  (48 ≤ c.toNat && c.toNat ≤ 57) ||
  (97 ≤ c.toNat && c.toNat ≤ 102) ||
  (65 ≤ c.toNat && c.toNat ≤ 70)

/-- Numeric value of a hexadecimal digit. -/
def hexVal (c : Char) : Nat :=
  if 48 ≤ c.toNat && c.toNat ≤ 57 then c.toNat - 48
  else if 97 ≤ c.toNat && c.toNat ≤ 102 then c.toNat - 87
  else if 65 ≤ c.toNat && c.toNat ≤ 70 then c.toNat - 55
  else 0

/-- Hex decoding with the semantics of Buffer.from(s, "hex") in Node: decode
two characters at a time and stop at the first pair that is not two hex
digits (an odd trailing character is likewise dropped). -/
def hexDecode : List Char → Bytes
  | c1 :: c2 :: rest =>
    if isNodeHexDigit c1 && isNodeHexDigit c2 then
      (hexVal c1 * 16 + hexVal c2) :: hexDecode rest
    else []
  | _ => []

/-! Embedding of src/shared/security.ts. -/

/-- Result record returned by validateWebhookSignature
(src/shared/security.ts, lines 8-11). -/
structure SignatureValidationResult where
  valid : Bool
  error : Option String
deriving DecidableEq

/-- Leading characters required of the signature header,
the literal "sha256=" of src/shared/security.ts line 31. -/
def sha256Tag : List Char := ['s', 'h', 'a', '2', '5', '6', '=']

/-- Check of signature.startsWith("sha256=") from src/shared/security.ts
line 31, decided on the character list. -/
def hasSha256Tag : List Char → Bool
  | 's' :: 'h' :: 'a' :: '2' :: '5' :: '6' :: '=' :: _ => true
  | _ => false

/-- Error message of the malformed-header outcome
(src/shared/security.ts line 34). -/
def malformedError : String := "Invalid signature format. Expected sha256=<hash>"

/-- Error message of the signature-mismatch outcome
(src/shared/security.ts line 55). -/
def mismatchError : String := "Signature mismatch. Request may be tampered or secret is incorrect"

/-- Message of the RangeError thrown by the Node timingSafeEqual primitive on
buffers of different lengths. -/
def lengthError : String := "Input buffers must have the same byte length"

/-- Constant-time buffer comparison of the Node crypto library: throws (here,
returns an error) when the buffer lengths differ, otherwise reports equality
of the contents. -/
def timingSafeEqual (a b : Bytes) : Except String Bool :=
  if a.length = b.length then Except.ok (decide (a = b)) else Except.error lengthError

/-- Embedding of validateWebhookSignature (src/shared/security.ts, lines
24-66): reject headers without the sha256= tag; hex-decode the received
digest after the tag and the computed lowercase hex HMAC-SHA256 digest;
compare the two buffers with timingSafeEqual, whose length-mismatch throw is
caught and turned into an error result by the surrounding try/catch. -/
def validateWebhookSignature (rawBody : Bytes) (signature : List Char) (secret : Bytes) :
    SignatureValidationResult :=
  if signature.isEmpty || ! hasSha256Tag signature then
    ⟨false, some malformedError⟩
  else
    let receivedHash := signature.drop 7
    let expectedHash := hexEncode (hmacSha256 secret rawBody)
    match timingSafeEqual (hexDecode receivedHash) (hexDecode expectedHash) with
    | Except.error e => ⟨false, some ("Signature validation error: " ++ e)⟩
    | Except.ok false => ⟨false, some mismatchError⟩
    | Except.ok true => ⟨true, none⟩

/-! Embedding of the webhook handler service (the app.post "/webhook" route).
The JSON payload type and the JSON.parse library call are parameters: the
route only stores the parsed value in the envelope and never inspects it.
Random UUID generation and the clock are likewise passed in as values. -/

/-- Headers object stored inside the webhook event by the route
(x-discourse-event, x-discourse-event-signature, x-discourse-event-id,
x-discourse-instance); the last two may be undefined. -/
structure WebhookHeaders where
  xDiscourseEvent : List Char
  xDiscourseEventSignature : List Char
  xDiscourseEventId : Option (List Char)
  xDiscourseInstance : Option (List Char)

/-- Webhook event record built by the route (shared/types.ts
DiscourseWebhookEvent), parametric in the payload type. -/
structure DiscourseWebhookEvent (J : Type) where
  event_type : List Char
  payload : J
  headers : WebhookHeaders
  received_at : List Char

/-- Queue envelope (shared/types.ts QueueMessage). -/
structure QueueMessage (J : Type) where
  id : List Char
  event : DiscourseWebhookEvent J
  timestamp : List Char
  retry_count : Nat

/-- Incoming request, as the route sees it: each header is possibly
undefined, and the raw body is available only when the content-type parser
ran. -/
structure WebhookRequest where
  signature : Option (List Char)
  eventType : Option (List Char)
  eventId : Option (List Char)
  instanceHeader : Option (List Char)
  rawBody : Option Bytes

/-- Falsiness of a header value in the route guards: undefined and the empty
string are falsy. -/
def falsyHeader : Option (List Char) → Bool
  | none => true
  | some s => s.isEmpty

/-- Responses the route can send, with their unique payload shapes. -/
inductive GatewayResponse where
  | badRequest (message : String)
  | internalServerError (message : String)
  | forbidden (message : String)
  | serviceUnavailable (message : String)
  | queued (message_id : List Char)
deriving DecidableEq

/-- HTTP status code attached to each response by the route. -/
def statusCode : GatewayResponse → Nat
  | GatewayResponse.badRequest _ => 400
  | GatewayResponse.internalServerError _ => 500
  | GatewayResponse.forbidden _ => 403
  | GatewayResponse.serviceUnavailable _ => 503
  | GatewayResponse.queued _ => 200

/-- Embedding of the app.post "/webhook" route of the handler service: header
guards, signature validation, JSON parse, envelope construction, publish and
response mapping. Alongside the response it returns the list of envelopes
passed to messageQueue.publish during the request. The publishRes parameter
is the broker behaviour of the publish call: ok true when sendToQueue accepts
the message, ok false when the buffer is full, error when publish throws
(channel not initialized, or sendToQueue raising); a throwing publish and a
throwing JSON.parse are both intercepted by the route-level try/catch, which
responds 500. -/
def handleWebhook {J : Type} (parseJson : Bytes → Option J) (secret : Bytes)
    (uuid now : List Char) (publishRes : Except String Bool)
    (req : WebhookRequest) : GatewayResponse × List (QueueMessage J) :=
  if falsyHeader req.signature then
    (GatewayResponse.badRequest "Missing X-Discourse-Event-Signature header", [])
  else if falsyHeader req.eventType then
    (GatewayResponse.badRequest "Missing X-Discourse-Event header", [])
  else
    match req.rawBody with
    | none => (GatewayResponse.internalServerError "Raw body not available", [])
    | some rawBody =>
      let signature := req.signature.getD []
      let eventType := req.eventType.getD []
      let validationResult := validateWebhookSignature rawBody signature secret
      if ! validationResult.valid then
        (GatewayResponse.forbidden "Invalid signature", [])
      else
        match parseJson rawBody with
        | none => (GatewayResponse.internalServerError "Failed to process webhook", [])
        | some payload =>
          let webhookEvent : DiscourseWebhookEvent J :=
            ⟨eventType, payload, ⟨eventType, signature, req.eventId, req.instanceHeader⟩, now⟩
          let queueMessage : QueueMessage J := ⟨uuid, webhookEvent, now, 0⟩
          match publishRes with
          | Except.error _ =>
            (GatewayResponse.internalServerError "Failed to process webhook", [queueMessage])
          | Except.ok false =>
            (GatewayResponse.serviceUnavailable "Queue is full or unavailable", [queueMessage])
          | Except.ok true =>
            (GatewayResponse.queued queueMessage.id, [queueMessage])

/-! Embedding of the consume callback of src/shared/queue.ts (lines 109-144)
and of the broker-side requeue semantics it relies on. -/

/-- Broker delivery as the consume callback sees it: the AMQP message
properties carry an optional headers table; only numeric header values are
relevant here. -/
structure Delivery where
  headers : List (String × Nat)

/-- Retry counter read by the consume callback (queue.ts lines 129-130):
the x-retry-count header of the delivery, defaulting to 0 when the header is
absent (the JS expression header-value or-else 0). -/
def getHeaderRetryCount (d : Delivery) : Nat :=
  (d.headers.lookup "x-retry-count").getD 0

/-- Per-delivery resolution of the consume callback. -/
inductive ConsumeDecision where
  | ack
  | requeue
  | deadLetter
deriving DecidableEq

/-- Decision logic of the consume callback (queue.ts lines 116-139): on
handler success acknowledge; on a thrown error requeue via reject(msg, true)
while the observed retry count is below 3, otherwise reject(msg, false). -/
def consumeDecision (handlerResult : Except String Unit) (msg : Delivery) : ConsumeDecision :=
  match handlerResult with
  | Except.ok _ => ConsumeDecision.ack
  | Except.error _ =>
    if getHeaderRetryCount msg < 3 then ConsumeDecision.requeue else ConsumeDecision.deadLetter

/-- Delivery of an envelope as published by the handler service: publish
(queue.ts lines 68-72) passes only persistent, contentType and timestamp in
the message options and sets no headers table, so the delivered message
carries no x-retry-count header. -/
def publishedDelivery : Delivery := ⟨[]⟩

/-- Broker-side effect of reject(msg, true), per the AMQP basic.reject
semantics implemented by RabbitMQ: the very message object, content and
properties untouched, is returned to the queue for redelivery; the consume
callback passes msg unchanged and the channel API offers no way to alter it
during requeue. -/
def requeuedDelivery (msg : Delivery) : Delivery := msg

/-- Delivery observed after n consecutive failed processing attempts, each
resolved by the requeue branch of the consume callback. -/
def deliveryAfterFailures : Nat → Delivery
  | 0 => publishedDelivery
  | n + 1 => requeuedDelivery (deliveryAfterFailures n)

/-! Embedding of routeMessage (src/worker/index.ts, lines 33-80). -/

/-- Embedding of routeMessage: events whose event_type is notification or
notification_created are handed to processNotificationEvent (an external
collaborator whose behaviour, result or thrown error, is the procResult
parameter; the catch block of routeMessage re-throws its error); every other
event type is logged and the function returns early without calling any
processor. -/
def routeMessage {J : Type} (procResult : Except String Unit)
    (msg : QueueMessage J) : Except String Unit :=
  let eventType := msg.event.event_type
  if eventType = "notification".data ∨ eventType = "notification_created".data then
    match procResult with
    | Except.ok _ => Except.ok ()
    | Except.error e => Except.error e
  else
    Except.ok ()

/-! Concrete sample data used by witnesses and counterexamples. -/

/-- Single-bit mutation of a character string: flip bit k of the character at
position i. -/
def flipCharBit (i k : Nat) (s : List Char) : List Char :=
  s.set i (Char.ofNat ((s.getD i ' ').toNat ^^^ (1 <<< k)))

/-- Sample shared secret. -/
def sampleSecret : Bytes := strBytes "topsecret"

/-- Sample raw request body. -/
def sampleBody : Bytes := strBytes "body=test"

/-- The correct signature header value for the sample body and secret. -/
def sampleSig : List Char := sha256Tag ++ hexEncode (hmacSha256 sampleSecret sampleBody)

/-- Sample envelope id, as produced by randomUUID. -/
def sampleUuid : List Char := "3f2c9a10-7b4d-4e61-9c1e-5a8d2b6f0c43".data

/-- Sample timestamp. -/
def sampleNow : List Char := "2026-10-12T00:00:00.000Z".data

/-- Sample queue message carrying an event type no processor predicate
matches. -/
def samplePostMessage : QueueMessage Unit :=
  ⟨"id-1".data,
   ⟨"post_created".data, (), ⟨"post_created".data, "sha256=x".data, none, none⟩, "now".data⟩,
   "now".data, 0⟩

end Webhook

namespace Webhook

/-! Auxiliary lemmas about the hex codec and the digest shape. -/

theorem hexEncode_cons (b : Nat) (t : Bytes) :
    hexEncode (b :: t) = toHexDigit (b / 16) :: toHexDigit (b % 16) :: hexEncode t := rfl

theorem toHexDigit_isHex {n : Nat} (h : n < 16) : isNodeHexDigit (toHexDigit n) = true := by
  interval_cases n <;> decide

theorem hexVal_toHexDigit {n : Nat} (h : n < 16) : hexVal (toHexDigit n) = n := by
  interval_cases n <;> decide

theorem hexDecode_hexEncode :
    ∀ bs : Bytes, (∀ b ∈ bs, b < 256) → hexDecode (hexEncode bs) = bs := by
  intro bs
  induction bs with
  | nil => intro _; rfl
  | cons b t ih =>
    intro h
    have hb : b < 256 := h b (List.mem_cons_self _ _)
    have h1 : b / 16 < 16 := by omega
    have h2 : b % 16 < 16 := by omega
    have ht : ∀ x ∈ t, x < 256 := fun x hx => h x (List.mem_cons_of_mem _ hx)
    rw [hexEncode_cons, hexDecode, if_pos (by rw [toHexDigit_isHex h1, toHexDigit_isHex h2]; rfl)]
    rw [hexVal_toHexDigit h1, hexVal_toHexDigit h2, ih ht]
    congr 1
    omega

theorem hexDecode_length_aux :
    ∀ (n : Nat) (d : List Char), d.length ≤ n → (∀ c ∈ d, isNodeHexDigit c = true) →
      (hexDecode d).length = d.length / 2 := by
  intro n
  induction n with
  | zero =>
    intro d hd _
    have : d = [] := List.eq_nil_of_length_eq_zero (Nat.le_zero.mp hd)
    subst this; rfl
  | succ n ih =>
    intro d hd hall
    match d with
    | [] => rfl
    | [c] => simp [hexDecode]
    | c1 :: c2 :: rest =>
      have h1 : isNodeHexDigit c1 = true := hall c1 (by simp)
      have h2 : isNodeHexDigit c2 = true := hall c2 (by simp)
      have hrest : ∀ c ∈ rest, isNodeHexDigit c = true := fun c hc => hall c (by simp [hc])
      have hlen : rest.length ≤ n := by simp only [List.length_cons] at hd; omega
      rw [hexDecode, if_pos (by rw [h1, h2]; rfl)]
      simp only [List.length_cons, ih rest hlen hrest]
      omega

theorem hexDecode_length_allHex {d : List Char} (h : ∀ c ∈ d, isNodeHexDigit c = true) :
    (hexDecode d).length = d.length / 2 :=
  hexDecode_length_aux d.length d le_rfl h

theorem sha256_length (msg : Bytes) : (sha256 msg).length = 32 := rfl

theorem sha256_lt (msg : Bytes) : ∀ b ∈ sha256 msg, b < 256 := by
  intro b hb
  simp only [sha256, wordToBytes, List.mem_append, List.mem_cons, List.not_mem_nil,
    or_false] at hb
  rcases hb with ((h | h | h | h) | (h | h | h | h)) | ((h | h | h | h) | (h | h | h | h)) |
    ((h | h | h | h) | (h | h | h | h)) | ((h | h | h | h) | (h | h | h | h)) <;> omega

theorem hmacSha256_length (key msg : Bytes) : (hmacSha256 key msg).length = 32 := by
  unfold hmacSha256
  exact sha256_length _

theorem hmacSha256_lt (key msg : Bytes) : ∀ b ∈ hmacSha256 key msg, b < 256 := by
  unfold hmacSha256
  exact sha256_lt _

theorem hexDecode_hexEncode_hmac (key msg : Bytes) :
    hexDecode (hexEncode (hmacSha256 key msg)) = hmacSha256 key msg :=
  hexDecode_hexEncode _ (hmacSha256_lt key msg)

end Webhook

namespace Webhook

theorem validate_tag_eq (B S : Bytes) (d : List Char) :
    validateWebhookSignature B (sha256Tag ++ d) S =
      match timingSafeEqual (hexDecode d) (hexDecode (hexEncode (hmacSha256 S B))) with
      | Except.error e => ⟨false, some ("Signature validation error: " ++ e)⟩
      | Except.ok false => ⟨false, some mismatchError⟩
      | Except.ok true => ⟨true, none⟩ := by
  have h1 : (sha256Tag ++ d).isEmpty = false := rfl
  have h2 : hasSha256Tag (sha256Tag ++ d) = true := rfl
  have h3 : (sha256Tag ++ d).drop 7 = d := rfl
  unfold validateWebhookSignature
  rw [h1, h2, h3]
  simp

/-- C3: for every byte string B and every secret S, validating raw body B
against the signature header built as "sha256=" followed by the lowercase hex
encoding of HMAC-SHA256(S, B) yields the Valid outcome: valid is true and no
error is reported. -/
theorem C3_valid_signature_accepted (B S : Bytes) :
    validateWebhookSignature B (sha256Tag ++ hexEncode (hmacSha256 S B)) S = ⟨true, none⟩ := by
  rw [validate_tag_eq]
  simp [timingSafeEqual]

/-- C10: validateWebhookSignature is total at its interface: on every input it
returns a well-formed result, either valid with no error, or invalid with a
non-empty error message; in particular the length-mismatch throw of
timingSafeEqual is caught and mapped to an invalid result with a non-empty
error string. -/
theorem C10_validator_total_result (B : Bytes) (sig : List Char) (S : Bytes) :
    ((validateWebhookSignature B sig S).valid = true ∧
      (validateWebhookSignature B sig S).error = none) ∨
    ((validateWebhookSignature B sig S).valid = false ∧
      ∃ m : String, (validateWebhookSignature B sig S).error = some m ∧ 0 < m.length) := by
  unfold validateWebhookSignature
  split
  · right
    exact ⟨rfl, malformedError, rfl, by decide⟩
  · dsimp only
    split
    case _ e heq =>
      right
      refine ⟨rfl, "Signature validation error: " ++ e, rfl, ?_⟩
      unfold timingSafeEqual at heq
      split at heq
      · exact absurd heq (by simp)
      · cases heq
        decide
    case _ heq => right; exact ⟨rfl, mismatchError, rfl, by decide⟩
    case _ heq => left; exact ⟨rfl, rfl⟩

end Webhook

namespace Webhook

set_option maxRecDepth 100000 in
/-- C4 counterexample: a single-bit mutation of the hex digest in an otherwise
well-formed signature header does not always yield the signature-mismatch
outcome. For the sample body and secret, flipping bit 6 of the first digest
character turns it into a non-hex character, the received digest then decodes
to fewer bytes than the computed digest, timingSafeEqual throws on the length
mismatch and the catch block returns the internal validation-error outcome
instead; and flipping bit 5 (the letter-case bit) of the second digest
character leaves the decoded bytes unchanged, so the mutated header is even
accepted as Valid. -/
theorem C4_counterexample :
    (flipCharBit 0 6 (hexEncode (hmacSha256 sampleSecret sampleBody)) ≠
       hexEncode (hmacSha256 sampleSecret sampleBody) ∧
     validateWebhookSignature sampleBody
        (sha256Tag ++ flipCharBit 0 6 (hexEncode (hmacSha256 sampleSecret sampleBody)))
        sampleSecret =
       ⟨false, some ("Signature validation error: " ++ lengthError)⟩) ∧
    (flipCharBit 1 5 (hexEncode (hmacSha256 sampleSecret sampleBody)) ≠
       hexEncode (hmacSha256 sampleSecret sampleBody) ∧
     validateWebhookSignature sampleBody
        (sha256Tag ++ flipCharBit 1 5 (hexEncode (hmacSha256 sampleSecret sampleBody)))
        sampleSecret = ⟨true, none⟩) := by
  decide

/-- C4 (amended): mutations are classified by their effect on the decoded
digest bytes. First, for any two bodies whose HMAC-SHA256 digests under the
secret differ (as a single-bit body mutation is believed to guarantee), the
original digest header validates the mutated body to the signature-mismatch
outcome. Second, a received digest of 64 hex-digit characters whose decoded
bytes differ from the computed digest yields the signature-mismatch outcome.
Third, a received digest whose hex decoding does not have exactly 32 bytes
(as happens when a mutation makes a character non-hex) yields the
internal-error outcome produced by the caught timingSafeEqual throw, not the
signature-mismatch outcome. -/
theorem C4_amended_mutation_outcomes :
    (∀ B B' S : Bytes, hmacSha256 S B' ≠ hmacSha256 S B →
      validateWebhookSignature B' (sha256Tag ++ hexEncode (hmacSha256 S B)) S =
        ⟨false, some mismatchError⟩) ∧
    (∀ (B S : Bytes) (d : List Char), d.length = 64 →
      (∀ c ∈ d, isNodeHexDigit c = true) → hexDecode d ≠ hmacSha256 S B →
      validateWebhookSignature B (sha256Tag ++ d) S = ⟨false, some mismatchError⟩) ∧
    (∀ (B S : Bytes) (d : List Char), (hexDecode d).length ≠ 32 →
      validateWebhookSignature B (sha256Tag ++ d) S =
        ⟨false, some ("Signature validation error: " ++ lengthError)⟩) := by
  refine ⟨?_, ?_, ?_⟩
  · intro B B' S hne
    rw [validate_tag_eq, hexDecode_hexEncode_hmac, hexDecode_hexEncode_hmac]
    unfold timingSafeEqual
    rw [hmacSha256_length, hmacSha256_length, if_pos rfl,
      decide_eq_false (fun h => hne h.symm)]
  · intro B S d hlen hhex hne
    rw [validate_tag_eq, hexDecode_hexEncode_hmac]
    unfold timingSafeEqual
    rw [hexDecode_length_allHex hhex, hlen, hmacSha256_length, if_pos (by norm_num),
      decide_eq_false hne]
  · intro B S d hlen
    rw [validate_tag_eq, hexDecode_hexEncode_hmac]
    unfold timingSafeEqual
    rw [hmacSha256_length, if_neg hlen]

set_option maxRecDepth 100000 in
/-- Witness for the amended C4, instantiating its three clauses: a single-bit
body mutation (final byte of the sample body flipped from t to u) is rejected
as a mismatch; an all-zero 64-digit received digest is rejected as a
mismatch; a short received digest is resolved to the internal-error
outcome. -/
theorem C4_amended_witness :
    validateWebhookSignature (strBytes "body=tesu") sampleSig sampleSecret =
      ⟨false, some mismatchError⟩ ∧
    validateWebhookSignature sampleBody (sha256Tag ++ List.replicate 64 '0') sampleSecret =
      ⟨false, some mismatchError⟩ ∧
    validateWebhookSignature sampleBody (sha256Tag ++ "deadbeef".data) sampleSecret =
      ⟨false, some ("Signature validation error: " ++ lengthError)⟩ :=
  ⟨C4_amended_mutation_outcomes.1 sampleBody (strBytes "body=tesu") sampleSecret (by decide),
   C4_amended_mutation_outcomes.2.1 sampleBody sampleSecret (List.replicate 64 '0')
     (by decide) (by decide) (by decide),
   C4_amended_mutation_outcomes.2.2 sampleBody sampleSecret "deadbeef".data (by decide)⟩

end Webhook

namespace Webhook

/-- C5: a POST /webhook request carrying both required headers, a signature
that validates, and a raw body that parses as JSON leads the gateway to make
exactly one publish call, the published envelope has retry_count 0, and the
response is 200 queued with message_id equal to the id of that envelope. -/
theorem C5_accepted_request_queued {J : Type} (parseJson : Bytes → Option J)
    (secret : Bytes) (uuid now s t : List Char) (eid inst : Option (List Char))
    (b : Bytes) (p : J)
    (hs : s.isEmpty = false) (ht : t.isEmpty = false)
    (hv : (validateWebhookSignature b s secret).valid = true)
    (hp : parseJson b = some p) :
    statusCode (handleWebhook parseJson secret uuid now (Except.ok true)
        ⟨some s, some t, eid, inst, some b⟩).1 = 200 ∧
    ∃ qm : QueueMessage J,
      handleWebhook parseJson secret uuid now (Except.ok true)
          ⟨some s, some t, eid, inst, some b⟩ =
        (GatewayResponse.queued qm.id, [qm]) ∧
      qm.retry_count = 0 ∧ qm.id = uuid := by
  have hH : handleWebhook parseJson secret uuid now (Except.ok true)
      ⟨some s, some t, eid, inst, some b⟩ =
      (GatewayResponse.queued uuid, [⟨uuid, ⟨t, p, ⟨t, s, eid, inst⟩, now⟩, now, 0⟩]) := by
    simp [handleWebhook, falsyHeader, hs, ht, hv, hp]
  rw [hH]
  exact ⟨rfl, ⟨uuid, ⟨t, p, ⟨t, s, eid, inst⟩, now⟩, now, 0⟩, rfl, rfl, rfl⟩

set_option maxRecDepth 100000 in
/-- Witness for C5 at the sample request: correct signature for the sample
body and secret, both headers present, publish accepted. -/
theorem C5_witness :
    statusCode (handleWebhook (fun _ => some ()) sampleSecret sampleUuid sampleNow
        (Except.ok true)
        ⟨some sampleSig, some "ping".data, none, none, some sampleBody⟩).1 = 200 ∧
    ∃ qm : QueueMessage Unit,
      handleWebhook (fun _ => some ()) sampleSecret sampleUuid sampleNow (Except.ok true)
          ⟨some sampleSig, some "ping".data, none, none, some sampleBody⟩ =
        (GatewayResponse.queued qm.id, [qm]) ∧
      qm.retry_count = 0 ∧ qm.id = sampleUuid :=
  C5_accepted_request_queued (fun _ => some ()) sampleSecret sampleUuid sampleNow
    sampleSig "ping".data none none sampleBody ()
    (by decide) (by decide) (by decide) rfl

/-- C6 (amended): for a request that passes header checks, signature
validation and body parsing, a publish call that returns false (broker buffer
saturated) produces the 503 ServiceUnavailable response, while a publish call
that throws (broker rejecting with an error, or the client not being
connected) is intercepted by the route-level catch and produces a 500
InternalServerError response; in every case the gateway makes exactly one
publish call and no retry of its own. -/
theorem C6_amended_publish_failure {J : Type} (parseJson : Bytes → Option J)
    (secret : Bytes) (uuid now s t : List Char) (eid inst : Option (List Char))
    (b : Bytes) (p : J)
    (hs : s.isEmpty = false) (ht : t.isEmpty = false)
    (hv : (validateWebhookSignature b s secret).valid = true)
    (hp : parseJson b = some p) :
    (statusCode (handleWebhook parseJson secret uuid now (Except.ok false)
        ⟨some s, some t, eid, inst, some b⟩).1 = 503 ∧
      (handleWebhook parseJson secret uuid now (Except.ok false)
        ⟨some s, some t, eid, inst, some b⟩).2.length = 1) ∧
    ∀ e : String,
      statusCode (handleWebhook parseJson secret uuid now (Except.error e)
          ⟨some s, some t, eid, inst, some b⟩).1 = 500 ∧
      (handleWebhook parseJson secret uuid now (Except.error e)
          ⟨some s, some t, eid, inst, some b⟩).2.length = 1 := by
  constructor
  · constructor <;> simp [handleWebhook, falsyHeader, hs, ht, hv, hp, statusCode]
  · intro e
    constructor <;> simp [handleWebhook, falsyHeader, hs, ht, hv, hp, statusCode]

set_option maxRecDepth 100000 in
/-- C6 counterexample: with a fully valid request and a broker client that is
not connected, publish throws, and the gateway responds 500, not the 503
ServiceUnavailable outcome the claim requires. -/
theorem C6_counterexample :
    statusCode (handleWebhook (fun _ => some ()) sampleSecret sampleUuid sampleNow
        (Except.error "Channel not initialized. Call connect() first")
        ⟨some sampleSig, some "ping".data, none, none, some sampleBody⟩).1 = 500 ∧
    statusCode (handleWebhook (fun _ => some ()) sampleSecret sampleUuid sampleNow
        (Except.error "Channel not initialized. Call connect() first")
        ⟨some sampleSig, some "ping".data, none, none, some sampleBody⟩).1 ≠ 503 := by
  decide

set_option maxRecDepth 100000 in
/-- Witness for the amended C6 at the sample request: buffer saturation gives
503, a throwing publish gives 500. -/
theorem C6_amended_witness :
    (statusCode (handleWebhook (fun _ => some ()) sampleSecret sampleUuid sampleNow
        (Except.ok false)
        ⟨some sampleSig, some "ping".data, none, none, some sampleBody⟩).1 = 503 ∧
      (handleWebhook (fun _ => some ()) sampleSecret sampleUuid sampleNow (Except.ok false)
        ⟨some sampleSig, some "ping".data, none, none, some sampleBody⟩).2.length = 1) ∧
    statusCode (handleWebhook (fun _ => some ()) sampleSecret sampleUuid sampleNow
        (Except.error "sendToQueue failure")
        ⟨some sampleSig, some "ping".data, none, none, some sampleBody⟩).1 = 500 :=
  ⟨(C6_amended_publish_failure (fun _ => some ()) sampleSecret sampleUuid sampleNow
      sampleSig "ping".data none none sampleBody ()
      (by decide) (by decide) (by decide) rfl).1,
   ((C6_amended_publish_failure (fun _ => some ()) sampleSecret sampleUuid sampleNow
      sampleSig "ping".data none none sampleBody ()
      (by decide) (by decide) (by decide) rfl).2 "sendToQueue failure").1⟩

/-- C7: a POST /webhook request carrying both required headers whose
signature fails validation, for any invalidity reason, is answered 403
Forbidden and the gateway publishes nothing. -/
theorem C7_invalid_signature_forbidden {J : Type} (parseJson : Bytes → Option J)
    (secret : Bytes) (uuid now s t : List Char) (eid inst : Option (List Char))
    (b : Bytes) (publishRes : Except String Bool)
    (hs : s.isEmpty = false) (ht : t.isEmpty = false)
    (hv : (validateWebhookSignature b s secret).valid = false) :
    handleWebhook parseJson secret uuid now publishRes ⟨some s, some t, eid, inst, some b⟩ =
      (GatewayResponse.forbidden "Invalid signature", ([] : List (QueueMessage J))) ∧
    statusCode (handleWebhook parseJson secret uuid now publishRes
        ⟨some s, some t, eid, inst, some b⟩).1 = 403 := by
  constructor <;> simp [handleWebhook, falsyHeader, hs, ht, hv, statusCode]

set_option maxRecDepth 100000 in
/-- Witness for C7: the wrong signature sha256=deadbeef on the sample body
gives 403 and zero publish calls, whatever the broker would have done. -/
theorem C7_witness :
    handleWebhook (fun _ => some ()) sampleSecret sampleUuid sampleNow (Except.ok true)
        ⟨some (sha256Tag ++ "deadbeef".data), some "ping".data, none, none, some sampleBody⟩ =
      (GatewayResponse.forbidden "Invalid signature", ([] : List (QueueMessage Unit))) ∧
    statusCode (handleWebhook (fun _ => some ()) sampleSecret sampleUuid sampleNow
        (Except.ok true)
        ⟨some (sha256Tag ++ "deadbeef".data), some "ping".data, none, none,
         some sampleBody⟩).1 = 403 :=
  C7_invalid_signature_forbidden (fun _ => some ()) sampleSecret sampleUuid sampleNow
    (sha256Tag ++ "deadbeef".data) "ping".data none none sampleBody (Except.ok true)
    (by decide) (by decide) (by decide)

/-- C8: a POST /webhook request missing the event-type header is answered 400
Bad Request and the gateway publishes nothing, whatever the rest of the
request contains. -/
theorem C8_missing_event_type_bad_request {J : Type} (parseJson : Bytes → Option J)
    (secret : Bytes) (uuid now : List Char) (sig eid inst : Option (List Char))
    (body : Option Bytes) (publishRes : Except String Bool) :
    statusCode (handleWebhook parseJson secret uuid now publishRes
        ⟨sig, none, eid, inst, body⟩).1 = 400 ∧
    (handleWebhook parseJson secret uuid now publishRes
        ⟨sig, none, eid, inst, body⟩).2 = ([] : List (QueueMessage J)) := by
  constructor <;>
  · unfold handleWebhook
    split <;> rfl

end Webhook

namespace Webhook

/-- C9: a consumed message whose event_type matches no registered processor
predicate, in particular anything other than notification and
notification_created, makes routeMessage complete without raising, whatever
the notification processor would have done, so the consume callback
acknowledges the delivery and the retry and dead-letter paths are never
taken for unknown event types. -/
theorem C9_unknown_event_type_acked {J : Type} (procResult : Except String Unit)
    (qm : QueueMessage J) (d : Delivery)
    (h1 : qm.event.event_type ≠ "notification".data)
    (h2 : qm.event.event_type ≠ "notification_created".data) :
    routeMessage procResult qm = Except.ok () ∧
    consumeDecision (routeMessage procResult qm) d = ConsumeDecision.ack := by
  have hr : routeMessage procResult qm = Except.ok () := by
    unfold routeMessage
    rw [if_neg (not_or.mpr ⟨h1, h2⟩)]
  exact ⟨hr, by rw [hr]; rfl⟩

/-- Witness for C9: a post_created message is routed to completion and
acknowledged even when the notification processor would have thrown. -/
theorem C9_witness :
    routeMessage (Except.error "processor failure") samplePostMessage = Except.ok () ∧
    consumeDecision (routeMessage (Except.error "processor failure") samplePostMessage)
      publishedDelivery = ConsumeDecision.ack :=
  C9_unknown_event_type_acked (Except.error "processor failure") samplePostMessage
    publishedDelivery (by decide) (by decide)

theorem deliveryAfterFailures_fixed : ∀ n : Nat, deliveryAfterFailures n = publishedDelivery := by
  intro n
  induction n with
  | zero => rfl
  | succ n ih => simpa [deliveryAfterFailures, requeuedDelivery] using ih

/-- C1 (claim right, code wrong): the retry counter is read from the
x-retry-count delivery header, but no publisher or consumer in the repository
ever writes that header, and a reject-with-requeue returns the delivery with
unchanged properties; hence the observed retry count is 0 at every redelivery
and the consume callback resolves every processing failure to requeue. In
particular, after 3 failed attempts the 4th failure is still requeued instead
of dead-lettered, and no number of consecutive failures ever reaches the
dead-letter branch. -/
theorem C1_never_dead_lettered :
    consumeDecision (Except.error "processing failed") (deliveryAfterFailures 3) =
      ConsumeDecision.requeue ∧
    ∀ (n : Nat) (e : String),
      consumeDecision (Except.error e) (deliveryAfterFailures n) = ConsumeDecision.requeue := by
  refine ⟨rfl, fun n e => ?_⟩
  rw [deliveryAfterFailures_fixed]
  rfl

/-- C2 (claim right, code wrong): the consume callback requeues a failed
delivery through reject-with-requeue, which records nothing: after any number
of consecutive failures the redelivered message is identical to the
originally published one and its observed retry count is still 0, so the
observed retry_count sequence is constantly 0 rather than strictly
increasing, and no retry_count + 1 is ever recorded in delivery metadata. -/
theorem C2_requeue_records_nothing :
    ∀ n : Nat, deliveryAfterFailures n = publishedDelivery ∧
      getHeaderRetryCount (deliveryAfterFailures n) = 0 := by
  intro n
  refine ⟨deliveryAfterFailures_fixed n, ?_⟩
  rw [deliveryAfterFailures_fixed]
  rfl

end Webhook
